import Mathlib

/-
  Verification development for the Cpp17_jthread library
  (cooperative-cancellation primitives: stop_token / stop_source /
  stop_callback, an interruptible condition_variable_any, and a
  lock-free shared-pointer handle).

  Shallow embedding: the C++ classes are translated into Lean
  structures and pure functions; heap-allocated shared state becomes
  an explicit heap indexed by allocation ids; concurrent environments
  (other threads mutating the atomic flag, cv wakeups) become streams
  of observed values; mutex-protected multi-thread executions become
  an explicit interleaving semantics over atomic steps.
-/

namespace DP

/-- Model of std::cv_status. -/
inductive CvStatus : Type
  | timeout
  | no_timeout
deriving DecidableEq, Repr

/-! ## detail::stop_state (src/include/stop_token.h lines 21-84)

A callable is modelled by an opaque numeric label: invoking a callback
means emitting its label into an invocation trace. `callback_state`
holds the registration id and the callable label. -/

/-- Model of detail::stop_state::callback_state - an (id, callable) pair. -/
structure CallbackState : Type where
  id : Nat
  callable : Nat
deriving DecidableEq, Repr

/-- Model of detail::stop_state: the atomic flag m_stop_requested, the
monotonic counter m_current_callback_id, and the list m_callbacks
(insertion order preserved, as for std::list emplace_back). -/
structure StopState : Type where
  m_stop_requested : Bool
  m_current_callback_id : Nat
  m_callbacks : List CallbackState
deriving DecidableEq, Repr

namespace StopState

/-- A freshly constructed stop_state: flag false, counter 0, no callbacks. -/
def init : StopState := ⟨false, 0, []⟩

/-- detail::stop_state::stop_requested - reads the atomic flag. -/
def stop_requested (s : StopState) : Bool := s.m_stop_requested

/-- detail::stop_state::register_callback - takes the next id from the
monotonic counter, appends the (id, callable) pair to the list, and
returns the id (caller must hold the lock; the lock is part of the
interleaving model below, not of this sequential transition). -/
def register_callback (s : StopState) (func : Nat) : Nat × StopState :=
  (s.m_current_callback_id,
   { s with
      m_current_callback_id := s.m_current_callback_id + 1,
      m_callbacks := s.m_callbacks ++ [⟨s.m_current_callback_id, func⟩] })

/-- detail::stop_state::deregister_callback - removes every entry whose
id matches (std::list::remove_if). -/
def deregister_callback (s : StopState) (id : Nat) : StopState :=
  { s with m_callbacks := s.m_callbacks.filter (fun c => c.id ≠ id) }

/-- detail::stop_state::execute_callbacks - invokes each registered
callback in list order (the emitted trace is the list itself, in
order), then clears the list. -/
def execute_callbacks (s : StopState) : List CallbackState × StopState :=
  (s.m_callbacks, { s with m_callbacks := [] })

/-- detail::stop_state::request_stop - stores true into the flag, then
(under the lock) runs execute_callbacks. Returns the invocation trace
paired with the new state. -/
def request_stop (s : StopState) : List CallbackState × StopState :=
  let s1 : StopState := { s with m_stop_requested := true }
  s1.execute_callbacks

/-- N successive calls to request_stop on the same state, concatenating
the invocation traces. -/
def requestStopN : Nat → StopState → List CallbackState × StopState
  | 0, s => ([], s)
  | n + 1, s =>
      let r1 := s.request_stop
      let r2 := requestStopN n r1.2
      (r1.1 ++ r2.1, r2.2)

/-- Well-formedness maintained by the registration discipline: every
registered id is below the counter, and ids strictly increase along the
list (registration order). -/
def WF (s : StopState) : Prop :=
  (∀ c ∈ s.m_callbacks, c.id < s.m_current_callback_id) ∧
    s.m_callbacks.Pairwise (fun a b => a.id < b.id)

instance (s : StopState) : Decidable s.WF := by
  unfold WF; infer_instance

end StopState

/-! ## Heap of stop_states, stop_token, stop_source

`std::make_shared<detail::stop_state>()` is modelled by allocation in an
explicit heap: cells are indexed by allocation ids, and a
lock_free_shared_ptr<stop_state> inside a token is `Option Nat` - null
or the id of the cell it points to. Pointer equality of shared_ptrs
(used by stop_token's operator==) is equality of ids. -/

/-- The heap of allocated stop_state objects: `next` is the next fresh
allocation id, `cells` gives each id's current contents. -/
structure Heap : Type where
  next : Nat
  cells : Nat → StopState

/-- The empty heap. -/
def Heap.empty : Heap := ⟨0, fun _ => StopState.init⟩

/-- Allocate a fresh stop_state cell, returning its id. -/
def Heap.alloc (h : Heap) (s : StopState) : Nat × Heap :=
  (h.next, ⟨h.next + 1, fun j => if j = h.next then s else h.cells j⟩)

/-- Overwrite the cell at id `i`. -/
def Heap.set (h : Heap) (i : Nat) (s : StopState) : Heap :=
  ⟨h.next, fun j => if j = i then s else h.cells j⟩

/-- Model of dp::stop_token: its lock_free_shared_ptr<stop_state>
member, null or a heap id. Copying a token copies the handle, which
loads the same pointer, so copies are equal values. -/
structure StopToken : Type where
  m_state : Option Nat
deriving DecidableEq, Repr

/-- stop_token(nullptr_t) - the private null-token constructor. -/
def StopToken.null : StopToken := ⟨none⟩

/-- stop_token() - the default constructor: make_shared a fresh
stop_state and point at it. -/
def StopToken.default (h : Heap) : StopToken × Heap :=
  let a := h.alloc StopState.init
  (⟨some a.1⟩, a.2)

/-- stop_token::stop_requested - `ptr && ptr->stop_requested()`. -/
def StopToken.stop_requested (t : StopToken) (h : Heap) : Bool :=
  match t.m_state with
  | none => false
  | some i => (h.cells i).stop_requested

/-- stop_token::stop_possible - `ptr != nullptr`. -/
def StopToken.stop_possible (t : StopToken) : Bool :=
  t.m_state.isSome

/-- operator==(stop_token, stop_token) - compares the loaded pointers
for identity (same cell, or both null). -/
def StopToken.beq (lhs rhs : StopToken) : Bool :=
  lhs.m_state = rhs.m_state

/-- Model of dp::stop_source: wraps exactly one stop_token. -/
structure StopSource : Type where
  m_token : StopToken
deriving DecidableEq, Repr

/-- stop_source() - default-constructs the wrapped token (fresh state). -/
def StopSource.default (h : Heap) : StopSource × Heap :=
  let t := StopToken.default h
  (⟨t.1⟩, t.2)

/-- stop_source(nostopstate_t) - wraps the null token. -/
def StopSource.nostopstate : StopSource := ⟨StopToken.null⟩

/-- stop_source::get_token - returns a copy of the wrapped token. -/
def StopSource.get_token (src : StopSource) : StopToken := src.m_token

/-- stop_source::stop_possible - delegates to the token. -/
def StopSource.stop_possible (src : StopSource) : Bool :=
  src.m_token.stop_possible

/-- stop_source::stop_requested - delegates to the token. -/
def StopSource.stop_requested (src : StopSource) (h : Heap) : Bool :=
  src.m_token.stop_requested h

/-- stop_source::request_stop - loads the pointer; if non-null calls
stop_state::request_stop on the pointee and returns true, else returns
false and does nothing. Result: (returned bool, invocation trace, heap). -/
def StopSource.request_stop (src : StopSource) (h : Heap) :
    Bool × List CallbackState × Heap :=
  match src.m_token.m_state with
  | none => (false, [], h)
  | some i =>
      let r := (h.cells i).request_stop
      (true, r.1, h.set i r.2)

/-! ## stop_callback::register_or_invoke (src/include/stop_token.h 172-197)

The constructor helper reads the atomic flag twice: once before taking
the lock and once after (double-checked locking), and a concurrent
request_stop may set the flag between the two reads. The first,
unlocked read is therefore a separate input `flag1`; the locked
re-check reads the current state `s`, which no other thread can mutate
while the lock is held. -/

/-- Outcome of register_or_invoke: either the callable was invoked
synchronously (and no registration id is stored), or it was registered
under the returned id. -/
inductive RegOutcome : Type
  | invoked
  | registered (id : Nat)
deriving DecidableEq, Repr

/-- stop_callback::register_or_invoke. `possible` is
m_token.stop_possible(); `flag1` is the value of the unlocked
stop_requested() read; `s` is the stop_state as seen under the lock
(its flag is the re-checked read); `func` is the callable's label.
Returns the outcome and the resulting stop_state. -/
def register_or_invoke (possible : Bool) (flag1 : Bool) (s : StopState)
    (func : Nat) : RegOutcome × StopState :=
  if !possible then
    (.invoked, s)
  else if !flag1 then
    -- lock acquired here; re-check under the lock
    if !s.stop_requested then
      let r := s.register_callback func
      (.registered r.1, r.2)
    else
      (.invoked, s)
  else
    (.invoked, s)

/-- ~stop_callback (src/include/stop_token.h 214-229): if an id was
recorded, double-checked deregistration - unlocked flag read `flag1`,
then under the lock re-check the state's flag and deregister only if
still false. -/
def stop_callback_dtor (callback_id : Option Nat) (flag1 : Bool)
    (s : StopState) : StopState :=
  match callback_id with
  | none => s
  | some id =>
      if !flag1 then
        if !s.stop_requested then s.deregister_callback id
        else s
      else s

/-! ## lock_free_shared_ptr::swap (src/lock_free_shared_ptr.h 43-74)

Handles are modelled as cells in a pointer store: `store c` is the
shared_ptr value (null or an object id) currently held by handle cell
`c`. compare-exchange on a cell is modelled exactly: compare the cell
with the expected value, and store the desired value on match. The
swap claims are about the algorithm's sequential result, so the loop
body (one iteration of the CAS-retry loop) is a function returning
`some store'` on success of both CASes and `none` when the iteration
would retry; in an execution without interference the ambient store
does not change between the steps. -/

/-- A store of lock_free_shared_ptr cells. -/
def PtrStore : Type := Nat → Option Nat

/-- One compare-exchange on cell `c`: on match stores `desired` and
reports success (the weak CAS is allowed to fail spuriously; the model
takes the successful behaviour, which is the one guaranteed to occur
eventually and the only one observable sequentially). -/
def casCell (store : PtrStore) (c : Nat) (expected desired : Option Nat) :
    Bool × PtrStore :=
  if store c = expected then
    (true, fun k => if k = c then desired else store k)
  else
    (false, store)

/-- One iteration of the swap retry loop, this handle being cell `i`
and `other` being cell `j`: capture both current values, CAS other's
slot to this one's old value, then CAS this slot to other's old value;
on failure of the second CAS attempt to restore `other` and signal a
retry (`none`). -/
def lfspSwapIter (store : PtrStore) (i j : Nat) : Option PtrStore :=
  let this_old := store i
  let other_old := store j
  let r1 := casCell store j other_old this_old
  if r1.1 then
    let r2 := casCell r1.2 i this_old other_old
    if r2.1 then
      some r2.2
    else
      -- rollback attempt on other's slot, then retry
      let r3 := casCell r2.2 j this_old other_old
      let _ := r3
      none
  else
    none

/-- lock_free_shared_ptr::swap in a sequential execution: the self-swap
guard `&other == this` is `i = j`; otherwise the loop body runs, and
(as proved below) both CASes succeed on the first iteration when no
other thread interferes, so the iteration's result is the final store. -/
def lfspSwap (store : PtrStore) (i j : Nat) : Option PtrStore :=
  if i = j then some store
  else lfspSwapIter store i j

/-! ## condition_variable_any waits (src/include/condition_variable.h)

The waits observe two shared booleans the environment may change at any
time - predicate() and token.stop_requested() - and block on the native
condition variable. The environment is modelled by streams: `predS k`
is the value returned by the k-th evaluation of predicate(), `stopS k`
the value of the k-th read of stop_requested(), `statusS k` the
cv_status produced by the k-th native timed wait. `fuel` bounds the
number of wakeups the environment grants; result `none` means the call
is still blocked (or looping) when fuel runs out. -/

/-- Environment of a wait call: successive observed values of
predicate(), stop_requested(), and native wait statuses. -/
structure WaitEnv : Type where
  predS : Nat → Bool
  stopS : Nat → Bool
  statusS : Nat → CvStatus

/-! ### wait(lock, token, pred) - lines 89-120

After the entry check the loop is:
  while (!pred()) { lock internal mutex; if stop_requested() return
  false; release caller's lock; wait; reacquire; }
  return true;
`i` counts loop iterations (= completed waits so far); iteration i
evaluates predicate() as observation `predS i` and, if needed,
stop_requested() as observation `stopS (i+1)` (observation 0 was the
entry check). The result pairs the returned value with the iteration
index at which the call returned. -/
def waitLoop (env : WaitEnv) : Nat → Nat → Option Bool × Nat
  | fuel, i =>
    if env.predS i then (some true, i)
    else if env.stopS (i + 1) then (some false, i)
    else
      match fuel with
      | 0 => (none, i)
      | fuel' + 1 => waitLoop env fuel' (i + 1)

/-- condition_variable_any::wait(Lock&, dp::stop_token, Pred).
Observation 0 is the entry token.stop_requested() check; if it is true
the call returns pred() (observation `predS 0`) at once, with 0 waits.
Otherwise a stop_callback firing notify_all() is registered for the
duration of the call (its effect - guaranteeing a wakeup - is part of
the fuel/environment) and the loop runs. -/
def waitTokenPred (env : WaitEnv) (fuel : Nat) : Option Bool × Nat :=
  if env.stopS 0 then (some (env.predS 0), 0)
  else waitLoop env fuel 0

/-! ### wait_until(lock, end_time) - lines 122-129

The body performs the native timed wait but the function, declared to
return std::cv_status, reaches its closing brace without a return
statement on every path: no status value is ever produced. The result
type is `Option CvStatus`, with `none` for falling off the end. -/

/-- condition_variable_any::wait_until(Lock&, time_point): executes the
native wait (whose status, `status`, is discarded by the source) and
then reaches the end of the function without returning a value. -/
def waitUntilNoPred (status : CvStatus) : Option CvStatus :=
  let _ := status
  none

/-! ### wait_until(lock, end_time, predicate) - lines 131-139

  while (!predicate()) {
    if (wait_until(lock, end_time) == std::cv_status::timeout) {
      return predicate();
    }
    return true;
  }
  // closing brace: no return

The loop body always returns, so the loop runs at most once. If
predicate() is true on entry the function falls off the end without
returning a value (`none`). In the loop, the inner call wait_until
(lock, end_time) itself returns no value (see waitUntilNoPred), so the
comparison against cv_status::timeout reads an indeterminate value,
modelled by the input `garbage_is_timeout`. -/
def waitUntilPred (predS : Nat → Bool) (garbage_is_timeout : Bool) :
    Option Bool :=
  if !(predS 0) then
    if garbage_is_timeout then some (predS 1)
    else some true
  else none

/-! ### wait_until(lock, token, end_time, predicate) - lines 141-168

  if (token.stop_requested()) return predicate();
  register stop_callback (notify_all);
  while (!predicate()) {
    bool stop = false;
    { lock; if (token.stop_requested()) return false;
      status = native wait_until(end_time);
      stop = (status == timeout || token.stop_requested()); }
    if (stop) return predicate();
  }
  return true;

Note the short-circuit: when the native wait reports timeout the second
stop_requested() read does not happen. Observation counters `p`, `s`,
`t` index the predS/stopS/statusS streams. The result is tagged with
which return statement fired. -/

/-- Which return statement of the token timed wait fired. -/
inductive TWExit : Type
  | entryStop   -- entry check saw stop requested: returned predicate()
  | loopStop    -- locked check saw stop requested: returned false
  | wake        -- woke by timeout or stop: returned predicate()
  | predTrue    -- loop condition: predicate() was true: returned true
deriving DecidableEq, Repr

/-- The loop of wait_until(lock, token, end_time, predicate), entered
with observation counters p, s, t. -/
def waitUntilLoop (env : WaitEnv) :
    Nat → Nat → Nat → Nat → Option (Bool × TWExit)
  | fuel, p, s, t =>
    if env.predS p then some (true, .predTrue)
    else if env.stopS s then some (false, .loopStop)
    else
      let r :=
        if env.statusS t = CvStatus.timeout then (true, s + 1)
        else (env.stopS (s + 1), s + 2)
      if r.1 then some (env.predS (p + 1), .wake)
      else
        match fuel with
        | 0 => none
        | fuel' + 1 => waitUntilLoop env fuel' (p + 1) r.2 (t + 1)

/-- condition_variable_any::wait_until(Lock&, dp::stop_token,
time_point, Pred): entry stop check is observation `stopS 0`; on entry
stop the call returns predicate() (observation `predS 0`); otherwise
the stop_callback is registered and the loop runs with p = 0, s = 1,
t = 0. -/
def waitUntilTokenPred (env : WaitEnv) (fuel : Nat) :
    Option (Bool × TWExit) :=
  if env.stopS 0 then some (env.predS 0, .entryStop)
  else waitUntilLoop env fuel 0 1 0

/-- condition_variable_any::wait_for(Lock&, dp::stop_token, duration,
Pred) - computes steady_clock::now() + wait_time and delegates to
wait_until with the token; the absolute deadline only influences the
native wait statuses, which the environment already supplies. -/
def waitForTokenPred (env : WaitEnv) (fuel : Nat) :
    Option (Bool × TWExit) :=
  waitUntilTokenPred env fuel

/-! ## Interleaving model for stop_callback vs request_stop

Scenario: a stop_token with one valid shared stop_state (initially
fresh); thread R constructs a stop_callback on it (running
register_or_invoke) and then destroys it (running ~stop_callback);
threads S and S2 each call request_stop on a source sharing the same
state. All shared accesses of the source are decomposed into the atomic
steps the hardware/mutex provide: the flag is a single atomic variable
(its loads and stores are individual steps that may interleave
anywhere), and code between acquiring and releasing m_mut is a critical
section no other lock-user can interleave with, so each locked region
is one step once the lock is held. The callback's callable carries
label 0; `invoked` records every invocation in order. -/

/-- Program counter of the register/destroy thread R. -/
inductive RPC : Type
  | r0              -- ctor: unlocked stop_requested() read
  | r1              -- ctor: acquiring the lock
  | r2              -- ctor: locked re-check, register or invoke, unlock
  | d0 (id : Nat)   -- dtor: unlocked stop_requested() read
  | d1 (id : Nat)   -- dtor: acquiring the lock
  | d2 (id : Nat)   -- dtor: locked re-check, deregister or not, unlock
  | rdone
deriving DecidableEq, Repr

/-- Program counter of a stopper thread running request_stop. -/
inductive SPC : Type
  | s0    -- store true into the flag
  | s1    -- acquiring the lock
  | s2    -- locked: execute_callbacks, unlock
  | sdone
deriving DecidableEq, Repr

/-- Who currently holds the stop_state's mutex. -/
inductive LockOwner : Type
  | free
  | byR
  | byS
  | byS2
deriving DecidableEq, Repr

/-- A global configuration of the three-thread scenario. -/
structure C4Config : Type where
  st : StopState
  lock : LockOwner
  rpc : RPC
  spc : SPC
  spc2 : SPC
  invoked : List Nat
  dereg : Bool        -- the destructor deregistered the callback
deriving DecidableEq, Repr

/-- Initial configuration: fresh state, lock free, all threads at
their first step, nothing invoked. -/
def c4Init : C4Config :=
  ⟨StopState.init, .free, .r0, .s0, .s0, [], false⟩

/-- One step of thread R, `none` when R is done or blocked on the lock. -/
def rStep (c : C4Config) : Option C4Config :=
  match c.rpc with
  | .r0 =>
      if c.st.stop_requested then
        some { c with rpc := .rdone, invoked := c.invoked ++ [0] }
      else some { c with rpc := .r1 }
  | .r1 =>
      match c.lock with
      | .free => some { c with lock := .byR, rpc := .r2 }
      | _ => none
  | .r2 =>
      if c.st.stop_requested then
        some { c with lock := .free, rpc := .rdone,
                      invoked := c.invoked ++ [0] }
      else
        let r := c.st.register_callback 0
        some { c with st := r.2, lock := .free, rpc := .d0 r.1 }
  | .d0 id =>
      if c.st.stop_requested then some { c with rpc := .rdone }
      else some { c with rpc := .d1 id }
  | .d1 id =>
      match c.lock with
      | .free => some { c with lock := .byR, rpc := .d2 id }
      | _ => none
  | .d2 id =>
      if c.st.stop_requested then
        some { c with lock := .free, rpc := .rdone }
      else
        some { c with st := c.st.deregister_callback id,
                      lock := .free, rpc := .rdone, dereg := true }
  | .rdone => none

/-- One step of a stopper thread whose pc is `pc` and whose lock-owner
tag is `me`; returns the new pc and the updated shared parts. -/
def sStepAux (c : C4Config) (pc : SPC) (me : LockOwner) :
    Option (SPC × C4Config) :=
  match pc with
  | .s0 =>
      some (.s1, { c with st := { c.st with m_stop_requested := true } })
  | .s1 =>
      match c.lock with
      | .free => some (.s2, { c with lock := me })
      | _ => none
  | .s2 =>
      let r := c.st.execute_callbacks
      some (.sdone,
        { c with st := r.2, lock := .free,
                 invoked := c.invoked ++ r.1.map (·.callable) })
  | .sdone => none

/-- One step of stopper thread S. -/
def sStep (c : C4Config) : Option C4Config :=
  (sStepAux c c.spc .byS).map (fun r => { r.2 with spc := r.1 })

/-- One step of stopper thread S2. -/
def s2Step (c : C4Config) : Option C4Config :=
  (sStepAux c c.spc2 .byS2).map (fun r => { r.2 with spc2 := r.1 })

/-- Thread identifiers for the scheduler. -/
inductive Tid : Type
  | r
  | s
  | s2
deriving DecidableEq, Repr

/-- Run one scheduled thread; a blocked or finished thread leaves the
configuration unchanged (the schedule slot is wasted). -/
def c4Step (t : Tid) (c : C4Config) : C4Config :=
  match t with
  | .r => (rStep c).getD c
  | .s => (sStep c).getD c
  | .s2 => (s2Step c).getD c

/-- Run a whole schedule from a configuration. -/
def c4Run : List Tid → C4Config → C4Config
  | [], c => c
  | t :: ts, c => c4Run ts (c4Step t c)

/-- All configurations one step (by any thread) from `c`. -/
def c4Next (c : C4Config) : List C4Config :=
  [c4Step .r c, c4Step .s c, c4Step .s2 c]

def c4c0 : C4Config := ⟨⟨false, 0, []⟩, .free, .r0, .s0, .s0, [], false⟩

def c4c1 : C4Config := ⟨⟨false, 0, []⟩, .free, .r1, .s0, .s0, [], false⟩

def c4c2 : C4Config := ⟨⟨true, 0, []⟩, .free, .r0, .s1, .s0, [], false⟩

def c4c3 : C4Config := ⟨⟨true, 0, []⟩, .free, .r0, .s0, .s1, [], false⟩

def c4c4 : C4Config := ⟨⟨false, 0, []⟩, .byR, .r2, .s0, .s0, [], false⟩

def c4c5 : C4Config := ⟨⟨true, 0, []⟩, .free, .r1, .s1, .s0, [], false⟩

def c4c6 : C4Config := ⟨⟨true, 0, []⟩, .free, .r1, .s0, .s1, [], false⟩

def c4c7 : C4Config := ⟨⟨true, 0, []⟩, .byS, .r0, .s2, .s0, [], false⟩

def c4c8 : C4Config := ⟨⟨true, 0, []⟩, .free, .r0, .s1, .s1, [], false⟩

def c4c9 : C4Config := ⟨⟨true, 0, []⟩, .byS2, .r0, .s0, .s2, [], false⟩

def c4c10 : C4Config := ⟨⟨false, 1, [⟨0, 0⟩]⟩, .free, (.d0 0), .s0, .s0, [], false⟩

def c4c11 : C4Config := ⟨⟨true, 0, []⟩, .free, .r1, .s1, .s1, [], false⟩

def c4c12 : C4Config := ⟨⟨false, 1, [⟨0, 0⟩]⟩, .free, (.d1 0), .s0, .s0, [], false⟩

def c4c13 : C4Config := ⟨⟨true, 1, [⟨0, 0⟩]⟩, .free, (.d0 0), .s1, .s0, [], false⟩

def c4c14 : C4Config := ⟨⟨true, 1, [⟨0, 0⟩]⟩, .free, (.d0 0), .s0, .s1, [], false⟩

def c4c15 : C4Config := ⟨⟨false, 1, [⟨0, 0⟩]⟩, .byR, (.d2 0), .s0, .s0, [], false⟩

def c4c16 : C4Config := ⟨⟨true, 1, [⟨0, 0⟩]⟩, .free, (.d1 0), .s1, .s0, [], false⟩

def c4c17 : C4Config := ⟨⟨true, 1, [⟨0, 0⟩]⟩, .free, (.d1 0), .s0, .s1, [], false⟩

def c4c18 : C4Config := ⟨⟨true, 1, [⟨0, 0⟩]⟩, .byS, (.d0 0), .s2, .s0, [], false⟩

def c4c19 : C4Config := ⟨⟨true, 1, [⟨0, 0⟩]⟩, .free, (.d0 0), .s1, .s1, [], false⟩

def c4c20 : C4Config := ⟨⟨true, 1, [⟨0, 0⟩]⟩, .byS2, (.d0 0), .s0, .s2, [], false⟩

def c4c21 : C4Config := ⟨⟨true, 1, [⟨0, 0⟩]⟩, .free, (.d1 0), .s1, .s1, [], false⟩

def c4c22 : C4Config := ⟨⟨false, 1, []⟩, .free, .rdone, .s0, .s0, [], true⟩

def c4c23 : C4Config := ⟨⟨true, 1, []⟩, .free, .rdone, .s1, .s0, [], true⟩

def c4c24 : C4Config := ⟨⟨true, 1, []⟩, .byS, .rdone, .s2, .s0, [], true⟩

def c4c25 : C4Config := ⟨⟨true, 1, []⟩, .free, .rdone, .sdone, .s0, [], true⟩

def c4c26 : C4Config := ⟨⟨true, 1, []⟩, .free, .rdone, .s0, .s1, [], true⟩

def c4c27 : C4Config := ⟨⟨true, 1, []⟩, .free, .rdone, .s1, .s1, [], true⟩

def c4c28 : C4Config := ⟨⟨true, 1, []⟩, .byS2, .rdone, .sdone, .s2, [], true⟩

def c4c29 : C4Config := ⟨⟨true, 1, []⟩, .free, .rdone, .sdone, .s1, [], true⟩

def c4c30 : C4Config := ⟨⟨true, 1, []⟩, .byS, .rdone, .s2, .s1, [], true⟩

def c4c31 : C4Config := ⟨⟨true, 1, []⟩, .byS2, .rdone, .s0, .s2, [], true⟩

def c4c32 : C4Config := ⟨⟨true, 1, []⟩, .byS2, .rdone, .s1, .s2, [], true⟩

def c4c33 : C4Config := ⟨⟨true, 1, []⟩, .free, .rdone, .sdone, .sdone, [], true⟩

def c4c34 : C4Config := ⟨⟨true, 1, []⟩, .byS, .rdone, .s2, .sdone, [], true⟩

def c4c35 : C4Config := ⟨⟨true, 1, []⟩, .free, .rdone, .s1, .sdone, [], true⟩

def c4c36 : C4Config := ⟨⟨true, 1, []⟩, .free, .rdone, .s0, .sdone, [], true⟩

def c4c37 : C4Config := ⟨⟨true, 1, [⟨0, 0⟩]⟩, .byR, (.d2 0), .s1, .s0, [], false⟩

def c4c38 : C4Config := ⟨⟨true, 1, [⟨0, 0⟩]⟩, .byS, (.d1 0), .s2, .s0, [], false⟩

def c4c39 : C4Config := ⟨⟨true, 1, []⟩, .byR, (.d2 0), .sdone, .s0, [0], false⟩

def c4c40 : C4Config := ⟨⟨true, 1, []⟩, .free, (.d1 0), .sdone, .s0, [0], false⟩

def c4c41 : C4Config := ⟨⟨true, 1, [⟨0, 0⟩]⟩, .byR, (.d2 0), .s0, .s1, [], false⟩

def c4c42 : C4Config := ⟨⟨true, 1, [⟨0, 0⟩]⟩, .byR, (.d2 0), .s1, .s1, [], false⟩

def c4c43 : C4Config := ⟨⟨true, 1, []⟩, .byR, (.d2 0), .sdone, .s1, [0], false⟩

def c4c44 : C4Config := ⟨⟨true, 1, []⟩, .byS2, (.d1 0), .sdone, .s2, [0], false⟩

def c4c45 : C4Config := ⟨⟨true, 1, []⟩, .free, (.d1 0), .sdone, .s1, [0], false⟩

def c4c46 : C4Config := ⟨⟨true, 1, [⟨0, 0⟩]⟩, .byS, (.d1 0), .s2, .s1, [], false⟩

def c4c47 : C4Config := ⟨⟨true, 1, [⟨0, 0⟩]⟩, .byS2, (.d1 0), .s0, .s2, [], false⟩

def c4c48 : C4Config := ⟨⟨true, 1, [⟨0, 0⟩]⟩, .byS2, (.d1 0), .s1, .s2, [], false⟩

def c4c49 : C4Config := ⟨⟨true, 1, []⟩, .byR, (.d2 0), .sdone, .sdone, [0], false⟩

def c4c50 : C4Config := ⟨⟨true, 1, []⟩, .free, (.d1 0), .sdone, .sdone, [0], false⟩

def c4c51 : C4Config := ⟨⟨true, 1, []⟩, .byR, (.d2 0), .s1, .sdone, [0], false⟩

def c4c52 : C4Config := ⟨⟨true, 1, []⟩, .byS, (.d1 0), .s2, .sdone, [0], false⟩

def c4c53 : C4Config := ⟨⟨true, 1, []⟩, .byR, (.d2 0), .s0, .sdone, [0], false⟩

def c4c54 : C4Config := ⟨⟨true, 1, []⟩, .free, (.d1 0), .s1, .sdone, [0], false⟩

def c4c55 : C4Config := ⟨⟨true, 1, []⟩, .free, (.d1 0), .s0, .sdone, [0], false⟩

def c4c56 : C4Config := ⟨⟨true, 1, [⟨0, 0⟩]⟩, .free, .rdone, .s1, .s0, [], false⟩

def c4c57 : C4Config := ⟨⟨true, 1, [⟨0, 0⟩]⟩, .byS, .rdone, .s2, .s0, [], false⟩

def c4c58 : C4Config := ⟨⟨true, 1, []⟩, .free, .rdone, .sdone, .s0, [0], false⟩

def c4c59 : C4Config := ⟨⟨true, 1, []⟩, .free, (.d0 0), .sdone, .s0, [0], false⟩

def c4c60 : C4Config := ⟨⟨true, 1, [⟨0, 0⟩]⟩, .free, .rdone, .s0, .s1, [], false⟩

def c4c61 : C4Config := ⟨⟨true, 1, [⟨0, 0⟩]⟩, .free, .rdone, .s1, .s1, [], false⟩

def c4c62 : C4Config := ⟨⟨true, 1, []⟩, .byS2, .rdone, .sdone, .s2, [0], false⟩

def c4c63 : C4Config := ⟨⟨true, 1, []⟩, .free, .rdone, .sdone, .s1, [0], false⟩

def c4c64 : C4Config := ⟨⟨true, 1, []⟩, .byS2, (.d0 0), .sdone, .s2, [0], false⟩

def c4c65 : C4Config := ⟨⟨true, 1, [⟨0, 0⟩]⟩, .byS, .rdone, .s2, .s1, [], false⟩

def c4c66 : C4Config := ⟨⟨true, 1, []⟩, .free, (.d0 0), .sdone, .s1, [0], false⟩

def c4c67 : C4Config := ⟨⟨true, 1, [⟨0, 0⟩]⟩, .byS, (.d0 0), .s2, .s1, [], false⟩

def c4c68 : C4Config := ⟨⟨true, 1, [⟨0, 0⟩]⟩, .byS2, .rdone, .s0, .s2, [], false⟩

def c4c69 : C4Config := ⟨⟨true, 1, [⟨0, 0⟩]⟩, .byS2, .rdone, .s1, .s2, [], false⟩

def c4c70 : C4Config := ⟨⟨true, 1, [⟨0, 0⟩]⟩, .byS2, (.d0 0), .s1, .s2, [], false⟩

def c4c71 : C4Config := ⟨⟨true, 1, []⟩, .free, .rdone, .sdone, .sdone, [0], false⟩

def c4c72 : C4Config := ⟨⟨true, 1, []⟩, .byS, .rdone, .s2, .sdone, [0], false⟩

def c4c73 : C4Config := ⟨⟨true, 1, []⟩, .free, (.d0 0), .sdone, .sdone, [0], false⟩

def c4c74 : C4Config := ⟨⟨true, 1, []⟩, .free, .rdone, .s1, .sdone, [0], false⟩

def c4c75 : C4Config := ⟨⟨true, 1, []⟩, .byS, (.d0 0), .s2, .sdone, [0], false⟩

def c4c76 : C4Config := ⟨⟨true, 1, []⟩, .free, .rdone, .s0, .sdone, [0], false⟩

def c4c77 : C4Config := ⟨⟨true, 1, []⟩, .free, (.d0 0), .s1, .sdone, [0], false⟩

def c4c78 : C4Config := ⟨⟨true, 1, []⟩, .free, (.d0 0), .s0, .sdone, [0], false⟩

def c4c79 : C4Config := ⟨⟨true, 0, []⟩, .byR, .r2, .s1, .s0, [], false⟩

def c4c80 : C4Config := ⟨⟨true, 0, []⟩, .byS, .r1, .s2, .s0, [], false⟩

def c4c81 : C4Config := ⟨⟨true, 0, []⟩, .byR, .r2, .sdone, .s0, [], false⟩

def c4c82 : C4Config := ⟨⟨true, 0, []⟩, .free, .r1, .sdone, .s0, [], false⟩

def c4c83 : C4Config := ⟨⟨true, 0, []⟩, .byR, .r2, .s0, .s1, [], false⟩

def c4c84 : C4Config := ⟨⟨true, 0, []⟩, .byR, .r2, .s1, .s1, [], false⟩

def c4c85 : C4Config := ⟨⟨true, 0, []⟩, .byR, .r2, .sdone, .s1, [], false⟩

def c4c86 : C4Config := ⟨⟨true, 0, []⟩, .byS2, .r1, .sdone, .s2, [], false⟩

def c4c87 : C4Config := ⟨⟨true, 0, []⟩, .free, .r1, .sdone, .s1, [], false⟩

def c4c88 : C4Config := ⟨⟨true, 0, []⟩, .byS, .r1, .s2, .s1, [], false⟩

def c4c89 : C4Config := ⟨⟨true, 0, []⟩, .byS2, .r1, .s0, .s2, [], false⟩

def c4c90 : C4Config := ⟨⟨true, 0, []⟩, .byS2, .r1, .s1, .s2, [], false⟩

def c4c91 : C4Config := ⟨⟨true, 0, []⟩, .byR, .r2, .sdone, .sdone, [], false⟩

def c4c92 : C4Config := ⟨⟨true, 0, []⟩, .free, .r1, .sdone, .sdone, [], false⟩

def c4c93 : C4Config := ⟨⟨true, 0, []⟩, .byR, .r2, .s1, .sdone, [], false⟩

def c4c94 : C4Config := ⟨⟨true, 0, []⟩, .byS, .r1, .s2, .sdone, [], false⟩

def c4c95 : C4Config := ⟨⟨true, 0, []⟩, .byR, .r2, .s0, .sdone, [], false⟩

def c4c96 : C4Config := ⟨⟨true, 0, []⟩, .free, .r1, .s1, .sdone, [], false⟩

def c4c97 : C4Config := ⟨⟨true, 0, []⟩, .free, .r1, .s0, .sdone, [], false⟩

def c4c98 : C4Config := ⟨⟨true, 0, []⟩, .free, .rdone, .s1, .s0, [0], false⟩

def c4c99 : C4Config := ⟨⟨true, 0, []⟩, .byS, .rdone, .s2, .s0, [0], false⟩

def c4c100 : C4Config := ⟨⟨true, 0, []⟩, .free, .rdone, .sdone, .s0, [0], false⟩

def c4c101 : C4Config := ⟨⟨true, 0, []⟩, .free, .r0, .sdone, .s0, [], false⟩

def c4c102 : C4Config := ⟨⟨true, 0, []⟩, .free, .rdone, .s0, .s1, [0], false⟩

def c4c103 : C4Config := ⟨⟨true, 0, []⟩, .free, .rdone, .s1, .s1, [0], false⟩

def c4c104 : C4Config := ⟨⟨true, 0, []⟩, .byS2, .rdone, .sdone, .s2, [0], false⟩

def c4c105 : C4Config := ⟨⟨true, 0, []⟩, .free, .rdone, .sdone, .s1, [0], false⟩

def c4c106 : C4Config := ⟨⟨true, 0, []⟩, .byS2, .r0, .sdone, .s2, [], false⟩

def c4c107 : C4Config := ⟨⟨true, 0, []⟩, .byS, .rdone, .s2, .s1, [0], false⟩

def c4c108 : C4Config := ⟨⟨true, 0, []⟩, .free, .r0, .sdone, .s1, [], false⟩

def c4c109 : C4Config := ⟨⟨true, 0, []⟩, .byS, .r0, .s2, .s1, [], false⟩

def c4c110 : C4Config := ⟨⟨true, 0, []⟩, .byS2, .rdone, .s0, .s2, [0], false⟩

def c4c111 : C4Config := ⟨⟨true, 0, []⟩, .byS2, .rdone, .s1, .s2, [0], false⟩

def c4c112 : C4Config := ⟨⟨true, 0, []⟩, .byS2, .r0, .s1, .s2, [], false⟩

def c4c113 : C4Config := ⟨⟨true, 0, []⟩, .free, .rdone, .sdone, .sdone, [0], false⟩

def c4c114 : C4Config := ⟨⟨true, 0, []⟩, .byS, .rdone, .s2, .sdone, [0], false⟩

def c4c115 : C4Config := ⟨⟨true, 0, []⟩, .free, .r0, .sdone, .sdone, [], false⟩

def c4c116 : C4Config := ⟨⟨true, 0, []⟩, .free, .rdone, .s1, .sdone, [0], false⟩

def c4c117 : C4Config := ⟨⟨true, 0, []⟩, .byS, .r0, .s2, .sdone, [], false⟩

def c4c118 : C4Config := ⟨⟨true, 0, []⟩, .free, .rdone, .s0, .sdone, [0], false⟩

def c4c119 : C4Config := ⟨⟨true, 0, []⟩, .free, .r0, .s1, .sdone, [], false⟩

def c4c120 : C4Config := ⟨⟨true, 0, []⟩, .free, .r0, .s0, .sdone, [], false⟩

/-- The reachable-set certificate for the scenario: an explicit list
of configurations containing the initial configuration and closed
under every thread's step (both facts are proved below); it therefore
contains every configuration any schedule can reach. -/
def C4R : List C4Config :=
  [c4c0, c4c1, c4c2, c4c3, c4c4, c4c5, c4c6, c4c7, c4c8, c4c9,
   c4c10, c4c11, c4c12, c4c13, c4c14, c4c15, c4c16, c4c17, c4c18,
   c4c19, c4c20, c4c21, c4c22, c4c23, c4c24, c4c25, c4c26, c4c27,
   c4c28, c4c29, c4c30, c4c31, c4c32, c4c33, c4c34, c4c35, c4c36,
   c4c37, c4c38, c4c39, c4c40, c4c41, c4c42, c4c43, c4c44, c4c45,
   c4c46, c4c47, c4c48, c4c49, c4c50, c4c51, c4c52, c4c53, c4c54,
   c4c55, c4c56, c4c57, c4c58, c4c59, c4c60, c4c61, c4c62, c4c63,
   c4c64, c4c65, c4c66, c4c67, c4c68, c4c69, c4c70, c4c71, c4c72,
   c4c73, c4c74, c4c75, c4c76, c4c77, c4c78, c4c79, c4c80, c4c81,
   c4c82, c4c83, c4c84, c4c85, c4c86, c4c87, c4c88, c4c89, c4c90,
   c4c91, c4c92, c4c93, c4c94, c4c95, c4c96, c4c97, c4c98, c4c99,
   c4c100, c4c101, c4c102, c4c103, c4c104, c4c105, c4c106, c4c107,
   c4c108, c4c109, c4c110, c4c111, c4c112, c4c113, c4c114, c4c115,
   c4c116, c4c117, c4c118, c4c119, c4c120]

/-- All three threads have finished. -/
def c4Done (c : C4Config) : Bool :=
  c.rpc = .rdone && c.spc = .sdone && c.spc2 = .sdone

/-! ## Theorems -/

/-- Helper: request_stop on an already-drained, already-requested state
does nothing, no matter how often it is repeated. -/
theorem requestStopN_drained (n : Nat) (c : Nat) :
    StopState.requestStopN n ⟨true, c, []⟩ = ([], ⟨true, c, []⟩) := by
  induction n with
  | zero => rfl
  | succ n ih =>
      simp [StopState.requestStopN, StopState.request_stop,
        StopState.execute_callbacks, ih]

/-- C5: cancellation is idempotent and monotonic: N ≥ 1 calls to
request_stop() on one cancellation state produce exactly the effect of
the first call (one invocation trace, the later calls drain an empty
list and invoke nothing), and stop_requested() is true afterwards and
stays true. -/
theorem request_stop_idempotent (s : StopState) (n : Nat) (h : 1 ≤ n) :
    StopState.requestStopN n s = s.request_stop ∧
    (StopState.requestStopN n s).2.stop_requested = true := by
  obtain ⟨m, rfl⟩ : ∃ m, n = m + 1 :=
    ⟨n - 1, (Nat.succ_pred_eq_of_pos h).symm⟩
  obtain ⟨f, c, cb⟩ := s
  have hmain : StopState.requestStopN (m + 1) ⟨f, c, cb⟩ =
      StopState.request_stop ⟨f, c, cb⟩ := by
    simp [StopState.requestStopN, StopState.request_stop,
      StopState.execute_callbacks, requestStopN_drained]
  refine ⟨hmain, ?_⟩
  rw [hmain]
  rfl

/-- Witness for C5 at a concrete state and N = 3. -/
theorem request_stop_idempotent_witness :
    StopState.requestStopN 3 ⟨false, 2, [⟨0, 5⟩, ⟨1, 6⟩]⟩ =
      StopState.request_stop ⟨false, 2, [⟨0, 5⟩, ⟨1, 6⟩]⟩ ∧
    (StopState.requestStopN 3 ⟨false, 2, [⟨0, 5⟩, ⟨1, 6⟩]⟩).2.stop_requested
      = true :=
  request_stop_idempotent ⟨false, 2, [⟨0, 5⟩, ⟨1, 6⟩]⟩ 3 (by decide)

/-- C8: on a well-formed state (ids below the counter and strictly
increasing along the list, the invariant registration maintains),
request_stop invokes exactly the registered callbacks, in list
(registration) order - so in strictly increasing id order - and leaves
the list empty; and register_callback preserves the invariant. -/
theorem request_stop_drains_in_order (s : StopState) (h : s.WF) :
    s.request_stop.1 = s.m_callbacks ∧
    List.Pairwise (fun a b => a.id < b.id) s.request_stop.1 ∧
    s.request_stop.2.m_callbacks = [] ∧
    (∀ func : Nat, ((s.register_callback func).2).WF) := by
  obtain ⟨hlt, hpw⟩ := h
  refine ⟨rfl, hpw, rfl, ?_⟩
  intro func
  constructor
  · intro c hc
    simp only [StopState.register_callback, List.mem_append,
      List.mem_singleton] at hc
    rcases hc with hc | hc
    · exact Nat.lt_trans (hlt c hc) (Nat.lt_succ_self _)
    · subst hc; exact Nat.lt_succ_self _
  · simp only [StopState.register_callback, List.pairwise_append,
      List.pairwise_singleton, List.mem_singleton]
    exact ⟨hpw, trivial, fun a ha b hb => by subst hb; exact hlt a ha⟩

/-- Witness for C8 at a concrete well-formed state. -/
theorem request_stop_drains_in_order_witness :
    StopState.WF ⟨false, 2, [⟨0, 5⟩, ⟨1, 6⟩]⟩ ∧
    (StopState.request_stop ⟨false, 2, [⟨0, 5⟩, ⟨1, 6⟩]⟩).1 =
      [⟨0, 5⟩, ⟨1, 6⟩] ∧
    (StopState.request_stop ⟨false, 2, [⟨0, 5⟩, ⟨1, 6⟩]⟩).2.m_callbacks =
      [] :=
  ⟨by decide,
   (request_stop_drains_in_order ⟨false, 2, [⟨0, 5⟩, ⟨1, 6⟩]⟩
      (by decide)).1,
   (request_stop_drains_in_order ⟨false, 2, [⟨0, 5⟩, ⟨1, 6⟩]⟩
      (by decide)).2.2.1⟩

/-- C6: the double-checked registration algorithm of the stop_callback
constructor, path by path: null state - invoke, no id; stop already
requested at the unlocked check - invoke, no id; stop observed at the
locked re-check - invoke, no id; otherwise register under the next
monotonic id, which is returned; and on every path the callable is
either invoked (list unchanged) or registered (appended once under the
fresh id), never both. -/
theorem register_or_invoke_cases (possible flag1 : Bool) (s : StopState)
    (f : Nat) :
    (possible = false →
      register_or_invoke possible flag1 s f = (.invoked, s)) ∧
    (possible = true → flag1 = true →
      register_or_invoke possible flag1 s f = (.invoked, s)) ∧
    (possible = true → flag1 = false → s.stop_requested = true →
      register_or_invoke possible flag1 s f = (.invoked, s)) ∧
    (possible = true → flag1 = false → s.stop_requested = false →
      register_or_invoke possible flag1 s f =
        (.registered s.m_current_callback_id, (s.register_callback f).2)) ∧
    (∀ o s', register_or_invoke possible flag1 s f = (o, s') →
      (o = .invoked ∧ s'.m_callbacks = s.m_callbacks) ∨
      (o = .registered s.m_current_callback_id ∧
        s'.m_callbacks =
          s.m_callbacks ++ [⟨s.m_current_callback_id, f⟩])) := by
  refine ⟨?_, ?_, ?_, ?_, ?_⟩ <;>
    cases possible <;> cases flag1 <;>
      simp_all [register_or_invoke, StopState.stop_requested,
        StopState.register_callback]
  · intro o s' h
    by_cases hs : s.m_stop_requested <;>
      simp_all [register_or_invoke, StopState.register_callback] <;>
      simp [← h]

/-- Witness for C6: the register path at a fresh state. -/
theorem register_or_invoke_cases_witness :
    register_or_invoke true false ⟨false, 0, []⟩ 7 =
      (.registered 0, ⟨false, 1, [⟨0, 7⟩]⟩) :=
  (register_or_invoke_cases true false ⟨false, 0, []⟩ 7).2.2.2.1
    rfl rfl rfl

/-- C7: a source built from the no-stop-state marker has a null token,
and any source whose token is null (the nostopstate source and every
copy of it - copying a source copies the token handle, which loads the
same null pointer) always reports stop_possible() false and
request_stop() false, invoking nothing and leaving the heap untouched. -/
theorem nostopstate_source_inert (src : StopSource) (h0 : Heap)
    (h : src.m_token.m_state = none) :
    StopSource.nostopstate.m_token.m_state = none ∧
    src.stop_possible = false ∧
    src.stop_requested h0 = false ∧
    src.request_stop h0 = (false, [], h0) := by
  refine ⟨rfl, ?_, ?_, ?_⟩ <;>
    simp [StopSource.stop_possible, StopToken.stop_possible,
      StopSource.stop_requested, StopToken.stop_requested,
      StopSource.request_stop, h]

/-- Witness for C7 at the nostopstate source itself, on the empty heap. -/
theorem nostopstate_source_inert_witness :
    StopSource.nostopstate.stop_possible = false ∧
    StopSource.nostopstate.request_stop Heap.empty =
      (false, [], Heap.empty) :=
  ⟨(nostopstate_source_inert StopSource.nostopstate Heap.empty rfl).2.1,
   (nostopstate_source_inert StopSource.nostopstate Heap.empty rfl).2.2.2⟩

/-- C10: a default-constructed stop_token allocates a fresh state:
right after construction stop_possible() is true and stop_requested()
is false; a second independent default construction yields a token
over a distinct state, so the two compare unequal under operator==
(while two null tokens compare equal); and the first token is still
unrequested in the heap after the second allocation. -/
theorem default_token_fresh (h : Heap) :
    (StopToken.default h).1.stop_possible = true ∧
    (StopToken.default h).1.stop_requested (StopToken.default h).2 =
      false ∧
    (StopToken.default (StopToken.default h).2).1.stop_possible = true ∧
    (StopToken.default (StopToken.default h).2).1.stop_requested
      (StopToken.default (StopToken.default h).2).2 = false ∧
    (StopToken.default h).1.stop_requested
      (StopToken.default (StopToken.default h).2).2 = false ∧
    StopToken.beq (StopToken.default h).1
      (StopToken.default (StopToken.default h).2).1 = false ∧
    StopToken.beq StopToken.null StopToken.null = true := by
  refine ⟨rfl, ?_, rfl, ?_, ?_, ?_, rfl⟩ <;>
    simp [StopToken.default, Heap.alloc, StopToken.stop_requested,
      StopToken.beq, StopState.stop_requested, StopState.init,
      Nat.succ_ne_self, Nat.ne_of_lt (Nat.lt_succ_self h.next)]

/-- C9: swap exchanges the two handles' stored pointers: for distinct
handle cells the CAS-retry loop completes on its first iteration (both
compare-exchanges succeed when no other thread interferes) leaving each
cell holding the pointer the other held before, and swapping a cell
with itself is a no-op. -/
theorem lfsp_swap_exchanges (store : PtrStore) (i j : Nat) :
    (i ≠ j → lfspSwap store i j =
      some (fun k =>
        if k = i then store j else if k = j then store i else store k)) ∧
    lfspSwap store i i = some store := by
  constructor
  · intro hij
    simp [lfspSwap, hij, lfspSwapIter, casCell]
  · simp [lfspSwap]

/-- Concrete store for the C9 witness. -/
def swapDemoStore : PtrStore :=
  fun k => if k = 0 then some 10 else if k = 1 then some 20 else none

/-- Witness for C9: swapping cells 0 and 1 of the demo store leaves
cell 0 holding cell 1's old pointer and vice versa. -/
theorem lfsp_swap_exchanges_witness :
    (lfspSwap swapDemoStore 0 1).map (fun g => (g 0, g 1)) =
      some (some 20, some 10) := by
  rw [(lfsp_swap_exchanges swapDemoStore 0 1).1 (by decide)]
  rfl

/-- Helper: soundness of the wait(lock, token, pred) loop. If the loop
started at iteration `i` returns value `b` at iteration `n`, then every
earlier iteration saw the predicate false and the stop flag unset, a
true return saw the predicate true, and a false return saw the
predicate false and then the stop flag set (under the internal mutex). -/
theorem waitLoop_eq_some (env : WaitEnv) :
    ∀ (fuel i : Nat) (b : Bool) (n : Nat),
      waitLoop env fuel i = (some b, n) →
      i ≤ n ∧
      (∀ j, i ≤ j → j < n →
        env.predS j = false ∧ env.stopS (j + 1) = false) ∧
      (b = true → env.predS n = true) ∧
      (b = false → env.predS n = false ∧ env.stopS (n + 1) = true) := by
  intro fuel
  induction fuel with
  | zero =>
      intro i b n h
      rw [waitLoop] at h
      by_cases hp : env.predS i = true
      · simp only [hp, if_true, Prod.mk.injEq, Option.some.injEq] at h
        obtain ⟨rfl, rfl⟩ := h
        refine ⟨Nat.le_refl _, fun j h1 h2 => absurd h2 (by omega),
          fun _ => hp, fun hb => absurd hb (by simp)⟩
      · simp only [hp, if_false] at h
        by_cases hs : env.stopS (i + 1) = true
        · simp only [hs, if_true, Prod.mk.injEq, Option.some.injEq] at h
          obtain ⟨rfl, rfl⟩ := h
          refine ⟨Nat.le_refl _, fun j h1 h2 => absurd h2 (by omega),
            fun hb => absurd hb (by simp),
            fun _ => ⟨Bool.eq_false_iff.mpr hp, hs⟩⟩
        · simp [hs] at h
  | succ fuel ih =>
      intro i b n h
      rw [waitLoop] at h
      by_cases hp : env.predS i = true
      · simp only [hp, if_true, Prod.mk.injEq, Option.some.injEq] at h
        obtain ⟨rfl, rfl⟩ := h
        refine ⟨Nat.le_refl _, fun j h1 h2 => absurd h2 (by omega),
          fun _ => hp, fun hb => absurd hb (by simp)⟩
      · simp only [hp, if_false] at h
        by_cases hs : env.stopS (i + 1) = true
        · simp only [hs, if_true, Prod.mk.injEq, Option.some.injEq] at h
          obtain ⟨rfl, rfl⟩ := h
          refine ⟨Nat.le_refl _, fun j h1 h2 => absurd h2 (by omega),
            fun hb => absurd hb (by simp),
            fun _ => ⟨Bool.eq_false_iff.mpr hp, hs⟩⟩
        · simp only [hs, if_false] at h
          obtain ⟨hle, hmid, htrue, hfalse⟩ := ih (i + 1) b n h
          refine ⟨by omega, ?_, htrue, hfalse⟩
          intro j hij hjn
          rcases Nat.eq_or_lt_of_le hij with rfl | hlt
          · exact ⟨Bool.eq_false_iff.mpr hp, Bool.eq_false_iff.mpr hs⟩
          · exact hmid j hlt hjn

/-- Helper: if the wait(lock, token, pred) loop is still blocked when
the wakeup budget runs out, every iteration it performed saw the
predicate false and the stop flag unset. -/
theorem waitLoop_eq_none (env : WaitEnv) :
    ∀ (fuel i : Nat), (waitLoop env fuel i).1 = none →
      ∀ j, i ≤ j → j ≤ i + fuel →
        env.predS j = false ∧ env.stopS (j + 1) = false := by
  intro fuel
  induction fuel with
  | zero =>
      intro i h j hij hji
      obtain rfl : j = i := by omega
      rw [waitLoop] at h
      by_cases hp : env.predS j = true
      · simp [hp] at h
      · by_cases hs : env.stopS (j + 1) = true
        · simp [hp, hs] at h
        · exact ⟨Bool.eq_false_iff.mpr hp, Bool.eq_false_iff.mpr hs⟩
  | succ fuel ih =>
      intro i h j hij hji
      rw [waitLoop] at h
      by_cases hp : env.predS i = true
      · simp [hp] at h
      · by_cases hs : env.stopS (i + 1) = true
        · simp [hp, hs] at h
        · simp only [hp, hs, if_false] at h
          rcases Nat.eq_or_lt_of_le hij with rfl | hlt
          · exact ⟨Bool.eq_false_iff.mpr hp, Bool.eq_false_iff.mpr hs⟩
          · exact ih (i + 1) h j hlt (by omega)

/-- C1: wait(lock, token, pred). If stop was already requested at
entry, the call returns pred()'s value at once with zero waits.
Otherwise: a true return means the predicate was observed true at the
final iteration (all earlier iterations saw predicate false and no
stop); a false return means the final iteration observed the predicate
false and then, after acquiring the internal mutex, the stop flag set,
no earlier iteration having seen either; and a call still blocked when
the wakeup budget is exhausted never sampled the predicate true nor
the stop flag set. -/
theorem wait_token_pred_spec (env : WaitEnv) (fuel : Nat) :
    (env.stopS 0 = true →
      waitTokenPred env fuel = (some (env.predS 0), 0)) ∧
    (env.stopS 0 = false → ∀ n,
      waitTokenPred env fuel = (some true, n) →
      env.predS n = true ∧
        ∀ j < n, env.predS j = false ∧ env.stopS (j + 1) = false) ∧
    (env.stopS 0 = false → ∀ n,
      waitTokenPred env fuel = (some false, n) →
      env.predS n = false ∧ env.stopS (n + 1) = true ∧
        ∀ j < n, env.predS j = false ∧ env.stopS (j + 1) = false) ∧
    (env.stopS 0 = false → (waitTokenPred env fuel).1 = none →
      ∀ j ≤ fuel, env.predS j = false ∧ env.stopS (j + 1) = false) := by
  refine ⟨fun h0 => by rw [waitTokenPred, if_pos h0], ?_, ?_, ?_⟩
  · intro h0 n h
    rw [waitTokenPred, if_neg (by simp [h0])] at h
    obtain ⟨-, hmid, htrue, -⟩ := waitLoop_eq_some env fuel 0 true n h
    exact ⟨htrue rfl, fun j hj => hmid j (Nat.zero_le _) hj⟩
  · intro h0 n h
    rw [waitTokenPred, if_neg (by simp [h0])] at h
    obtain ⟨-, hmid, -, hfalse⟩ := waitLoop_eq_some env fuel 0 false n h
    exact ⟨(hfalse rfl).1, (hfalse rfl).2,
      fun j hj => hmid j (Nat.zero_le _) hj⟩
  · intro h0 h
    rw [waitTokenPred, if_neg (by simp [h0])] at h
    exact fun j hj => waitLoop_eq_none env fuel 0 h j (Nat.zero_le _)
      (by omega)

/-- Concrete environment for the C1 witness: the predicate becomes
true at the third sample, no cancellation ever. -/
def c1DemoEnv : WaitEnv :=
  ⟨fun k => decide (2 ≤ k), fun _ => false, fun _ => CvStatus.timeout⟩

/-- Witness for C1: with the demo environment the call returns true
after two waits, the predicate having just turned true. -/
theorem wait_token_pred_spec_witness :
    c1DemoEnv.predS 2 = true :=
  ((wait_token_pred_spec c1DemoEnv 5).2.1 rfl 2 (by decide)).1

/-- Helper: soundness of the wait_until(lock, token, end_time, pred)
loop, whatever counters it is entered with: a predTrue exit returns
true with the predicate observed true; a loopStop exit returns false
with some stop_requested() read having returned true; a wake exit
returns the value of some predicate() evaluation; and the loop never
produces an entryStop exit. -/
theorem waitUntilLoop_eq_some (env : WaitEnv) :
    ∀ (fuel p s t : Nat) (b : Bool) (tag : TWExit),
      waitUntilLoop env fuel p s t = some (b, tag) →
      (tag = .predTrue → b = true ∧ ∃ q, env.predS q = true) ∧
      (tag = .loopStop → b = false ∧ ∃ u, env.stopS u = true) ∧
      (tag = .wake → ∃ q, b = env.predS q) ∧
      tag ≠ .entryStop := by
  intro fuel
  induction fuel with
  | zero =>
      intro p s t b tag h
      rw [waitUntilLoop] at h
      by_cases hp : env.predS p = true
      · simp only [hp, if_true, Option.some.injEq, Prod.mk.injEq] at h
        obtain ⟨rfl, rfl⟩ := h
        exact ⟨fun _ => ⟨rfl, p, hp⟩, by simp,
          by simp, by simp⟩
      · simp only [hp, if_false] at h
        by_cases hs : env.stopS s = true
        · simp only [hs, if_true, Option.some.injEq, Prod.mk.injEq] at h
          obtain ⟨rfl, rfl⟩ := h
          exact ⟨by simp, fun _ => ⟨rfl, s, hs⟩,
            by simp, by simp⟩
        · simp only [hs, if_false] at h
          by_cases hw : env.statusS t = CvStatus.timeout
          · simp only [hw, if_true, if_pos, Option.some.injEq,
              Prod.mk.injEq] at h
            obtain ⟨rfl, rfl⟩ := h
            exact ⟨by simp, by simp,
              fun _ => ⟨p + 1, rfl⟩, by simp⟩
          · simp only [hw, if_false] at h
            by_cases hs2 : env.stopS (s + 1) = true
            · simp only [hs2, if_true, Option.some.injEq,
                Prod.mk.injEq] at h
              obtain ⟨rfl, rfl⟩ := h
              exact ⟨by simp, by simp,
                fun _ => ⟨p + 1, rfl⟩, by simp⟩
            · simp [hs2] at h
  | succ fuel ih =>
      intro p s t b tag h
      rw [waitUntilLoop] at h
      by_cases hp : env.predS p = true
      · simp only [hp, if_true, Option.some.injEq, Prod.mk.injEq] at h
        obtain ⟨rfl, rfl⟩ := h
        exact ⟨fun _ => ⟨rfl, p, hp⟩, by simp,
          by simp, by simp⟩
      · simp only [hp, if_false] at h
        by_cases hs : env.stopS s = true
        · simp only [hs, if_true, Option.some.injEq, Prod.mk.injEq] at h
          obtain ⟨rfl, rfl⟩ := h
          exact ⟨by simp, fun _ => ⟨rfl, s, hs⟩,
            by simp, by simp⟩
        · simp only [hs, if_false] at h
          by_cases hw : env.statusS t = CvStatus.timeout
          · simp only [hw, if_true, if_pos, Option.some.injEq,
              Prod.mk.injEq] at h
            obtain ⟨rfl, rfl⟩ := h
            exact ⟨by simp, by simp,
              fun _ => ⟨p + 1, rfl⟩, by simp⟩
          · simp only [hw, if_false] at h
            by_cases hs2 : env.stopS (s + 1) = true
            · simp only [hs2, if_true, Option.some.injEq,
                Prod.mk.injEq] at h
              obtain ⟨rfl, rfl⟩ := h
              exact ⟨by simp, by simp,
                fun _ => ⟨p + 1, rfl⟩, by simp⟩
            · simp only [hs2, if_false] at h
              exact ih (p + 1) (s + 2) (t + 1) b tag h

/-- Environment refuting C3 as stated: the predicate is always false,
stop is never requested, and the first native wait times out. -/
def twCexEnv : WaitEnv :=
  ⟨fun _ => false, fun _ => false, fun _ => CvStatus.timeout⟩

/-- Counterexample to C3 as stated: in twCexEnv the timed wait with a
token returns false on the timeout-wake path although every
stop_requested() read - the only way a cancellation can be observed -
returns false: a false return does not imply an observed cancellation. -/
theorem wait_until_token_cex :
    waitUntilTokenPred twCexEnv 1 = some (false, .wake) ∧
    twCexEnv.stopS = (fun _ => false) :=
  ⟨rfl, rfl⟩

/-- C3 (amended): the timed waits with a token return false regardless
of the predicate only when a cancellation was observed (the locked
top-of-loop stop check); when stop was already pending at entry, or
the wait woke by timeout or by a signal with stop then observed, the
call returns the truth value of predicate() after waking - which may
itself be false after a plain timeout; a predTrue exit returns true;
and wait_for delegates to wait_until. -/
theorem wait_until_token_amended (env : WaitEnv) (fuel : Nat)
    (b : Bool) (tag : TWExit)
    (h : waitUntilTokenPred env fuel = some (b, tag)) :
    (tag = .entryStop → env.stopS 0 = true ∧ b = env.predS 0) ∧
    (tag = .loopStop → b = false ∧ ∃ u, env.stopS u = true) ∧
    (tag = .wake → ∃ q, b = env.predS q) ∧
    (tag = .predTrue → b = true) ∧
    waitForTokenPred env fuel = waitUntilTokenPred env fuel := by
  rw [waitUntilTokenPred] at h
  by_cases h0 : env.stopS 0 = true
  · simp only [h0, if_true, Option.some.injEq, Prod.mk.injEq] at h
    obtain ⟨rfl, rfl⟩ := h
    exact ⟨fun _ => ⟨h0, rfl⟩, by simp,
      by simp, by simp, rfl⟩
  · simp only [h0, if_false] at h
    obtain ⟨hpt, hls, hwk, hne⟩ :=
      waitUntilLoop_eq_some env fuel 0 1 0 b tag h
    exact ⟨fun ht => absurd ht hne, hls, hwk, fun ht => (hpt ht).1, rfl⟩

/-- Environment for the C3 witness: stop already pending at entry,
predicate true. -/
def twEntryEnv : WaitEnv :=
  ⟨fun _ => true, fun _ => true, fun _ => CvStatus.timeout⟩

/-- Witness for C3 (amended), on the entry-stop path. -/
theorem wait_until_token_amended_witness :
    twEntryEnv.stopS 0 = true ∧ (true : Bool) = twEntryEnv.predS 0 :=
  (wait_until_token_amended twEntryEnv 0 true .entryStop rfl).1 rfl

/-- C2 fails on the code: wait_until(lock, end_time) reaches the end of
a function declared to return std::cv_status without a return statement
on any path, and wait_until(lock, end_time, predicate) does the same
whenever predicate() is already true on entry (the while loop body is
never entered and the function ends); neither call produces the value
the specification promises. -/
theorem wait_until_missing_return :
    waitUntilNoPred CvStatus.timeout = none ∧
    waitUntilNoPred CvStatus.no_timeout = none ∧
    waitUntilPred (fun _ => true) true = none ∧
    waitUntilPred (fun _ => true) false = none :=
  ⟨rfl, rfl, rfl, rfl⟩

/-- Helper: the initial configuration is in the certificate set. -/
theorem c4Init_mem : c4Init ∈ C4R := by decide

set_option maxRecDepth 100000 in
set_option maxHeartbeats 8000000 in
/-- Helper: the certificate set is closed under every thread's step, so
it contains every configuration reachable under any interleaving. -/
theorem c4R_closed : ∀ c ∈ C4R, ∀ c' ∈ c4Next c, c' ∈ C4R := by decide

set_option maxRecDepth 100000 in
set_option maxHeartbeats 1000000 in
/-- Helper: in every certificate configuration where all three threads
have finished, the callback ran exactly once - unless the destructor
deregistered it before the cancellation, in which case it ran zero
times; it never ran twice. -/
theorem c4R_final : ∀ c ∈ C4R, c4Done c = true →
    (c.dereg = false → c.invoked = [0]) ∧
    (c.dereg = true → c.invoked = []) := by decide

/-- Helper: one scheduled step never leaves the certificate set. -/
theorem c4Step_mem (t : Tid) (c : C4Config) (h : c ∈ C4R) :
    c4Step t c ∈ C4R := by
  refine c4R_closed c h (c4Step t c) ?_
  cases t <;> simp [c4Next]

/-- Helper: a whole scheduled run stays in the certificate set. -/
theorem c4Run_mem : ∀ (sched : List Tid) (c : C4Config), c ∈ C4R →
    c4Run sched c ∈ C4R
  | [], _, h => h
  | t :: ts, c, h => c4Run_mem ts (c4Step t c) (c4Step_mem t c h)

/-- Counterexample to C4 as stated: under the interleaving where thread
R registers the callback and then destroys it (deregistering) before
either stopper runs, the execution completes with both request_stop
calls finished and the callback's action never invoked - cancellation
after registration-and-destruction runs the action zero times, not
exactly once. -/
theorem c4_zero_invocations_cex :
    c4Done (c4Run [.r, .r, .r, .r, .r, .r, .s, .s, .s, .s2, .s2, .s2]
      c4Init) = true ∧
    (c4Run [.r, .r, .r, .r, .r, .r, .s, .s, .s, .s2, .s2, .s2]
      c4Init).invoked = [] := by decide

/-- C4 (amended): over every interleaving of a thread constructing and
then destroying a stop_callback with two threads calling request_stop()
on sources sharing the same state, in every completed execution the
callback's action ran exactly once - never twice - unless the
destructor had deregistered it before the cancellation was observed, in
which case it ran exactly zero times. -/
theorem c4_exactly_once_unless_deregistered (sched : List Tid)
    (h : c4Done (c4Run sched c4Init) = true) :
    ((c4Run sched c4Init).dereg = false →
      (c4Run sched c4Init).invoked = [0]) ∧
    ((c4Run sched c4Init).dereg = true →
      (c4Run sched c4Init).invoked = []) :=
  c4R_final (c4Run sched c4Init) (c4Run_mem sched c4Init c4Init_mem) h

/-- Witness for C4 (amended): cancellation completes first, then the
construction runs the action inline - exactly one invocation. -/
theorem c4_exactly_once_witness :
    (c4Run [.s, .s, .s, .s2, .s2, .s2, .r] c4Init).invoked = [0] :=
  (c4_exactly_once_unless_deregistered [.s, .s, .s, .s2, .s2, .s2, .r]
    (by decide)).1 (by decide)

end DP
